import Mathlib

/-!
Verification development for `vm_pcloud_sync.py`, a command-line wrapper that
assembles and invokes `rclone` commands (copy / sync / bisync) for a list of
source directories.

The script is embedded shallowly:
* `Args` is the record of parsed command-line options (what `argparse` produces);
* `Env` abstracts the ambient world: the result of `shutil.which("rclone")`,
  path resolution, directory tests, `mkdir` success, the current time and the
  behaviour of spawned subprocesses;
* `mainTrace` replays `main()` as a list of observable events (stdout prints,
  stderr prints, subprocess invocations, directory creations, `sys.exit`).

All string manipulation (`rstrip`, `PurePosixPath.as_posix`, `Path.name`,
`str.split`) is modelled on plain Lean strings, faithful to CPython semantics
for POSIX paths.
-/

namespace VPS

/-- Built-in exclude patterns, module constant DEFAULT_EXCLUDES (lines 26-35). -/
def DEFAULT_EXCLUDES : List String :=
  ["/**/.git/**", "/**/.venv/**", "/**/venv/**", "/**/__pycache__/**",
   "/**/.mypy_cache/**", "/**/.pytest_cache/**", "/**/*.pyc", "/**/*.pyo"]

/-- The three values accepted by the --mode option. -/
inductive Mode
  | copy
  | sync
  | bisync
deriving DecidableEq

/-- String form of a mode, as passed to rclone. -/
def Mode.str : Mode → String
  | .copy => "copy"
  | .sync => "sync"
  | .bisync => "bisync"

/-- Python `args.mode.upper()`, used in the per-source banner. -/
def Mode.upper : Mode → String
  | .copy => "COPY"
  | .sync => "SYNC"
  | .bisync => "BISYNC"

/-- The seven values accepted by the --conflict-resolve option (argparse choices). -/
inductive ConflictPolicy
  | none
  | newer
  | older
  | path1
  | path2
  | larger
  | smaller
deriving DecidableEq

/-- String form of a conflict policy, as passed to rclone. -/
def ConflictPolicy.str : ConflictPolicy → String
  | .none => "none"
  | .newer => "newer"
  | .older => "older"
  | .path1 => "path1"
  | .path2 => "path2"
  | .larger => "larger"
  | .smaller => "smaller"

/-- Parsed command-line options, mirroring the argparse declaration
(lines 66-96).  `verbose` is the value produced by the count action
(default 1, so n occurrences of -v yield 1 + n).  `incl` stands for the
Python attribute `include` (a Lean keyword). -/
structure Args where
  src : List String
  dest : String
  mode : Mode
  reverse : Bool
  name : Option String
  snapshot : Bool
  dryRun : Bool
  fast : Bool
  verbose : Nat
  noDefaultExcludes : Bool
  exclude : List String
  incl : List String
  resync : Bool
  conflictResolve : ConflictPolicy

/-- A broken-down local time, as produced by datetime.now(). -/
structure Tm where
  year : Nat
  month : Nat
  mday : Nat
  hour : Nat
  minute : Nat
  second : Nat
deriving DecidableEq

/-- Outcome of one subprocess.run call: normal exit with a code, or a
KeyboardInterrupt raised while waiting. -/
inductive ProcResult
  | exited (code : Int)
  | interrupted
deriving DecidableEq

/-- The ambient world the script runs in. -/
structure Env where
  /-- Result of shutil.which("rclone"): the path found, if any. -/
  whichRclone : Option String
  /-- Models Path(os.path.expanduser(s)).resolve() (line 116). -/
  resolve : String → String
  /-- Models Path.is_dir() (line 121). -/
  isDir : String → Bool
  /-- Whether Path(p).mkdir(parents=True, exist_ok=True) succeeds (lines 127, 165). -/
  mkdirOk : String → Bool
  /-- The current local time, datetime.now() (line 105). -/
  now : Tm
  /-- Behaviour of subprocess.run on each argument vector (line 50). -/
  runRes : List String → ProcResult

/-- Observable events of one program run. -/
inductive Event
  | out (s : String)
  | err (s : String)
  | exec (cmd : List String)
  | mkdirp (p : String)
  | exited (code : Int)
  | crash
deriving DecidableEq

/-- Split a character list at every occurrence of a separator; always returns
at least one (possibly empty) piece, like Python str.split with an argument. -/
def splitOnChar (c : Char) : List Char → List (List Char)
  | [] => [[]]
  | x :: xs =>
    match splitOnChar c xs with
    | [] => [[]]
    | r :: rs => if x == c then [] :: r :: rs else (x :: r) :: rs

/-- Python sep.join for strings, structurally recursive. -/
def joinSep (sep : String) : List String → String
  | [] => ""
  | [x] => x
  | x :: xs => x ++ sep ++ joinSep sep xs

/-- Python s.split(sep) for a one-character separator. -/
def pySplit (s : String) (c : Char) : List String :=
  (splitOnChar c s.toList).map String.mk

/-- Python s.rstrip("/"): drop every trailing slash. -/
def pyRstrip (s : String) : String :=
  String.mk ((s.toList.reverse.dropWhile (fun c => c == '/')).reverse)

/-- The root prefix CPython PurePosixPath keeps: "//" for exactly two leading
slashes, "/" for one or three and more, "" otherwise. -/
def posixRoot (s : String) : String :=
  match s.toList with
  | '/' :: '/' :: '/' :: _ => "/"
  | '/' :: '/' :: _ => "//"
  | '/' :: _ => "/"
  | _ => ""

/-- CPython PurePosixPath(s).as_posix(): keep the root, drop empty and "."
components, rejoin with single slashes; the empty path renders as ".". -/
def pathAsPosix (s : String) : String :=
  let root := posixRoot s
  let comps := (pySplit s '/').filter (fun c => !(c == "") && !(c == "."))
  if root == "" && comps == [] then "." else root ++ joinSep "/" comps

/-- CPython PurePosixPath(s).name: the final non-root component, or "". -/
def pyName (s : String) : String :=
  (((pySplit s '/').filter (fun c => !(c == "") && !(c == "."))).getLast?).getD ""

/-- Two decimal digits of n, zero padded (truncating above 99). -/
def pad2 (n : Nat) : List Char :=
  [Nat.digitChar (n / 10 % 10), Nat.digitChar (n % 10)]

/-- Four decimal digits of n, zero padded (truncating above 9999). -/
def pad4 (n : Nat) : List Char :=
  [Nat.digitChar (n / 1000 % 10), Nat.digitChar (n / 100 % 10),
   Nat.digitChar (n / 10 % 10), Nat.digitChar (n % 10)]

/-- Models datetime.strftime("%Y%m%d_%H%M%S") (line 105); it agrees with
CPython for every time whose year has four digits, which `validTm` demands. -/
def strftimeTs (t : Tm) : String :=
  String.mk (pad4 t.year ++ pad2 t.month ++ pad2 t.mday ++ ['_'] ++
             pad2 t.hour ++ pad2 t.minute ++ pad2 t.second)

/-- Ranges in which a datetime.now() value always lies and on which
`strftimeTs` agrees with CPython strftime. -/
def validTm (t : Tm) : Prop :=
  1000 ≤ t.year ∧ t.year ≤ 9999 ∧ 1 ≤ t.month ∧ t.month ≤ 12 ∧
  1 ≤ t.mday ∧ t.mday ≤ 31 ∧ t.hour ≤ 23 ∧ t.minute ≤ 59 ∧ t.second ≤ 59

instance (t : Tm) : Decidable (validTm t) := by
  unfold validTm
  infer_instance

/-- Does a string match the shape YYYYMMDD_HHMMSS (8 digits, underscore, 6 digits)? -/
def isTsFormat (s : String) : Bool :=
  match s.toList with
  | [y1, y2, y3, y4, m1, m2, d1, d2, u, h1, h2, n1, n2, s1, s2] =>
    y1.isDigit && y2.isDigit && y3.isDigit && y4.isDigit &&
    m1.isDigit && m2.isDigit && d1.isDigit && d2.isDigit && (u == '_') &&
    h1.isDigit && h2.isDigit && n1.isDigit && n2.isDigit && s1.isDigit && s2.isDigit
  | _ => false

/-- Python list.insert(n, x): insert x before position n (clamped to the ends). -/
def pyInsert (n : Nat) (x : α) (l : List α) : List α :=
  l.take n ++ [x] ++ l.drop n

/-- remote_name (lines 44-45): text before the first colon, when there is one. -/
def remote_name (dest : String) : Option String :=
  if dest.toList.contains ':' then some ((pySplit dest ':').headD "") else none

/-- build_filter_args (lines 54-63), with the three Python accumulation loops
rendered as folds. -/
def build_filter_args (use_defaults : Bool) (extra_excludes extra_includes : List String) :
    List String :=
  let args : List String := []
  let args := if use_defaults then
      DEFAULT_EXCLUDES.foldl (fun acc pat => acc ++ ["--exclude", pat]) args
    else args
  let args := extra_excludes.foldl (fun acc pat => acc ++ ["--exclude", pat]) args
  let args := extra_includes.foldl (fun acc pat => acc ++ ["--include", pat]) args
  args

/-- The filter arguments main passes (line 170). -/
def fxOf (a : Args) : List String :=
  build_filter_args (!a.noDefaultExcludes) a.exclude a.incl

/-- The verbosity flags, ["-v"] * max(1, min(args.verbose, 3)) (line 106). -/
def vflags (verbose : Nat) : List String :=
  List.replicate (max 1 (min verbose 3)) "-v"

/-- The common flags (lines 107-111). -/
def common (a : Args) : List String :=
  ["-P", "--stats-one-line", "--stats", "10s"] ++ vflags a.verbose ++
  (if a.dryRun then ["-n"] else []) ++ (if a.fast then ["--fast-list"] else [])

/-- args.dest.rstrip("/") (line 132). -/
def destRoot (a : Args) : String := pyRstrip a.dest

/-- multi_src = len(args.src) > 1 (line 113). -/
def multiSrc (a : Args) : Bool := decide (1 < a.src.length)

/-- The nesting base (lines 135-140).  Note Python truthiness: an empty
--name string behaves as if --name were absent. -/
def baseFor (a : Args) (src_local : String) : Option String :=
  match a.name with
  | some n =>
    if n == "" then (if multiSrc a then some (pyName src_local) else Option.none)
    else some n
  | Option.none => if multiSrc a then some (pyName src_local) else Option.none

/-- The destination-root-derived path before any snapshot suffix: forward_dest
before line 151 (lines 146-149), identical to reverse_src_remote (lines
157-160).  Python tests `if base:`, so a base that is the empty string (a
multi-source run whose source resolves to the filesystem root) is falsy just
like None, and the path stays the bare destination root. -/
def remotePath (a : Args) (src_local : String) : String :=
  match baseFor a src_local with
  | some b => if b == "" then destRoot a else destRoot a ++ "/" ++ b
  | Option.none => destRoot a

/-- Does the snapshot suffix apply: args.mode in ("copy","sync") and args.snapshot. -/
def snapApplies (a : Args) : Bool :=
  (a.mode == Mode.copy || a.mode == Mode.sync) && a.snapshot

/-- The timestamp string of this run (line 105). -/
def tsOf (e : Env) : String := strftimeTs e.now

/-- f-string of lines 152 and 163: Path(p).as_posix().rstrip('/') + "-" + ts. -/
def snapPath (p ts : String) : String :=
  pyRstrip (pathAsPosix p) ++ "-" ++ ts

/-- (real_src, real_dest) for one source (lines 143-167), given the already
resolved local path. -/
def realPaths (a : Args) (e : Env) (src_local : String) : String × String :=
  if a.reverse then
    (remotePath a src_local,
     if snapApplies a then snapPath src_local (tsOf e) else src_local)
  else
    (src_local,
     if snapApplies a then snapPath (remotePath a src_local) (tsOf e)
     else remotePath a src_local)

/-- The fixed trailing bisync flags (lines 179-184). -/
def bisyncTail (a : Args) : List String :=
  ["--check-access", "--compare", "size,modtime", "--create-empty-src-dirs",
   "--resilient", "--recover", "--conflict-resolve", a.conflictResolve.str]

/-- The assembled rclone argument vector for one source (lines 172-187). -/
def buildCmd (a : Args) (e : Env) (rclone src_local : String) : List String :=
  let rp := realPaths a e src_local
  if a.mode == Mode.copy || a.mode == Mode.sync then
    [rclone, a.mode.str, rp.1, rp.2] ++ common a ++ fxOf a ++ ["--create-empty-src-dirs"]
  else
    let pp := if !a.reverse then (rp.1, rp.2) else (rp.2, rp.1)
    let cmd := [rclone, "bisync", pp.1, pp.2] ++ common a ++ fxOf a ++ bisyncTail a
    if a.resync then pyInsert 2 "--resync" cmd else cmd

/-- The events of run(cmd) (lines 47-52): echo the command, then spawn it. -/
def runEvents (cmd : List String) : List Event :=
  [Event.out ("$ " ++ joinSep " " cmd), Event.exec cmd]

/-- The value run(cmd) returns: the exit code, or 130 on KeyboardInterrupt. -/
def runRet (e : Env) (cmd : List String) : Int :=
  match e.runRes cmd with
  | .exited c => c
  | .interrupted => 130

/-- The direction banner text (lines 154, 167). -/
def directionOf (a : Args) : String :=
  if a.reverse then "remote -> local" else "local -> remote"

/-- The events of lines 189-194 for one source that was not skipped:
banner, run, then the success or failure report. -/
def sourceBody (e : Env) (a : Args) (rclone src_local : String) : List Event :=
  let rp := realPaths a e src_local
  let cmd := buildCmd a e rclone src_local
  let rc := runRet e cmd
  [Event.out ("\n=== " ++ a.mode.upper ++ " (" ++ directionOf a ++ ") ===\nSource : " ++
              rp.1 ++ "\nDest   : " ++ rp.2 ++ "\n")]
  ++ runEvents cmd
  ++ (if rc == 0 then [Event.out ("✅ Done: " ++ rp.1 ++ " → " ++ rp.2 ++ "\n")]
      else [Event.err ("❌ Failed (rc=" ++ toString rc ++ "): " ++ rp.1 ++ " → " ++ rp.2 ++ "\n")])

/-- One iteration of the source loop (lines 115-194).  Returns its events and
whether an uncaught exception aborted the whole program (the unguarded mkdir
of the snapshot directory at line 165 is the only such spot). -/
def sourceStep (e : Env) (a : Args) (rclone s : String) : List Event × Bool :=
  let src_local := e.resolve s
  if !a.reverse then
    if !(e.isDir src_local) then
      ([Event.err ("❌ Source not found or not a directory: " ++ src_local)], false)
    else (sourceBody e a rclone src_local, false)
  else
    if !(e.mkdirOk src_local) then
      ([Event.mkdirp src_local,
        Event.err ("❌ Cannot create local target directory: " ++ src_local)], false)
    else if snapApplies a then
      let snapDir := snapPath src_local (tsOf e)
      if !(e.mkdirOk snapDir) then
        ([Event.mkdirp src_local, Event.mkdirp snapDir, Event.crash], true)
      else
        ([Event.mkdirp src_local, Event.mkdirp snapDir] ++ sourceBody e a rclone src_local, false)
    else ([Event.mkdirp src_local] ++ sourceBody e a rclone src_local, false)

/-- The for-loop over args.src, stopping early only on an uncaught exception. -/
def sourceLoop (e : Env) (a : Args) (rclone : String) : List String → List Event
  | [] => []
  | s :: rest =>
    match sourceStep e a rclone s with
    | (evs, true) => evs
    | (evs, false) => evs ++ sourceLoop e a rclone rest

/-- The remote sanity probe (lines 100-103).  Python truthiness again: a
remote name that is the empty string suppresses the probe. -/
def probeEvents (a : Args) (rclone : String) : List Event :=
  match remote_name a.dest with
  | some rn => if rn == "" then [] else runEvents [rclone, "about", rn ++ ":"]
  | Option.none => []

/-- The whole observable trace of main() (lines 65-194). -/
def mainTrace (e : Env) (a : Args) : List Event :=
  match e.whichRclone with
  | Option.none =>
    [Event.err "❌ rclone not found. Install it first (e.g., `sudo apt-get install rclone`).",
     Event.exited 2]
  | some rclone => probeEvents a rclone ++ sourceLoop e a rclone a.src


/-! ## Helper lemmas -/

theorem foldl_pairs (flag : String) (l init : List String) :
    l.foldl (fun acc pat => acc ++ [flag, pat]) init =
      init ++ l.flatMap (fun pat => [flag, pat]) := by
  induction l generalizing init with
  | nil => simp
  | cons x xs ih => simp [ih]

theorem build_filter_args_eq (b : Bool) (ex inc : List String) :
    build_filter_args b ex inc =
      (if b then DEFAULT_EXCLUDES.flatMap (fun pat => ["--exclude", pat]) else []) ++
      ex.flatMap (fun pat => ["--exclude", pat]) ++
      inc.flatMap (fun pat => ["--include", pat]) := by
  unfold build_filter_args
  cases b <;> simp [foldl_pairs]

theorem mem_pair_flatMap {x flag : String} {l : List String}
    (h : x ∈ l.flatMap (fun pat => [flag, pat])) : x = flag ∨ x ∈ l := by
  rcases List.mem_flatMap.1 h with ⟨p, hp, hxp⟩
  rcases List.mem_cons.1 hxp with h1 | h1
  · exact Or.inl h1
  · simp at h1
    exact Or.inr (h1 ▸ hp)

theorem mem_build_filter_args {x : String} {b : Bool} {ex inc : List String}
    (h : x ∈ build_filter_args b ex inc) :
    x = "--exclude" ∨ x = "--include" ∨ x ∈ DEFAULT_EXCLUDES ∨ x ∈ ex ∨ x ∈ inc := by
  rw [build_filter_args_eq] at h
  rcases List.mem_append.1 h with h1 | h1
  · rcases List.mem_append.1 h1 with h2 | h2
    · cases b with
      | false => simp at h2
      | true =>
        simp only [if_true] at h2
        rcases mem_pair_flatMap h2 with h3 | h3
        · exact Or.inl h3
        · exact Or.inr (Or.inr (Or.inl h3))
    · rcases mem_pair_flatMap h2 with h3 | h3
      · exact Or.inl h3
      · exact Or.inr (Or.inr (Or.inr (Or.inl h3)))
  · rcases mem_pair_flatMap h1 with h3 | h3
    · exact Or.inr (Or.inl h3)
    · exact Or.inr (Or.inr (Or.inr (Or.inr h3)))

theorem count_v_common (a : Args) :
    (common a).count "-v" = max 1 (min a.verbose 3) := by
  unfold common vflags
  have h1 : List.count "-v" ["-P", "--stats-one-line", "--stats", "10s"] = 0 := by decide
  have h2 : List.count "-v" (if a.dryRun then ["-n"] else []) = 0 := by
    cases a.dryRun <;> decide
  have h3 : List.count "-v" (if a.fast then ["--fast-list"] else []) = 0 := by
    cases a.fast <;> decide
  have h4 : List.count "-v" (List.replicate (max 1 (min a.verbose 3)) "-v") =
      max 1 (min a.verbose 3) := by
    simp [List.count_replicate]
  rw [List.count_append, List.count_append, List.count_append, h1, h2, h3, h4]
  omega

theorem resync_not_mem_common (a : Args) : "--resync" ∉ common a := by
  intro h
  unfold common vflags at h
  rcases List.mem_append.1 h with h1 | h1
  · rcases List.mem_append.1 h1 with h2 | h2
    · rcases List.mem_append.1 h2 with h3 | h3
      · simp at h3
      · rcases List.mem_replicate.1 h3 with ⟨-, h4⟩
        simp at h4
    · cases hd : a.dryRun <;> rw [hd] at h2 <;> simp at h2
  · cases hf : a.fast <;> rw [hf] at h1 <;> simp at h1

theorem length_common (a : Args) : 5 ≤ (common a).length := by
  unfold common vflags
  simp only [List.length_append, List.length_replicate, List.length_cons, List.length_nil]
  have : 1 ≤ max 1 (min a.verbose 3) := le_max_left 1 _
  omega

theorem length_pyInsert (n : Nat) (x : α) (l : List α) :
    (pyInsert n x l).length = l.length + 1 := by
  unfold pyInsert
  simp only [List.length_append, List.length_take, List.length_drop, List.length_cons,
    List.length_nil]
  omega

theorem bisyncCmd_eq (a : Args) (e : Env) (rclone s : String) (hm : a.mode = Mode.bisync) :
    buildCmd a e rclone s =
      [rclone, "bisync"] ++ (if a.resync then ["--resync"] else []) ++
      [(if a.reverse then (realPaths a e s).2 else (realPaths a e s).1),
       (if a.reverse then (realPaths a e s).1 else (realPaths a e s).2)] ++
      common a ++ fxOf a ++ bisyncTail a := by
  unfold buildCmd
  rw [hm]
  cases hr : a.reverse <;> cases hres : a.resync <;>
    simp [pyInsert, List.take, List.drop]

theorem length_buildCmd (a : Args) (e : Env) (rclone s : String) :
    9 ≤ (buildCmd a e rclone s).length := by
  have hc := length_common a
  unfold buildCmd
  cases hm : (a.mode == Mode.copy || a.mode == Mode.sync) with
  | true =>
    simp only [if_true]
    simp only [List.length_append, List.length_cons, List.length_nil]
    omega
  | false =>
    simp only [Bool.false_eq_true, if_false]
    cases hres : a.resync with
    | true =>
      simp only [if_true, length_pyInsert]
      simp only [List.length_append, List.length_cons, List.length_nil, bisyncTail]
      omega
    | false =>
      simp only [Bool.false_eq_true, if_false]
      simp only [List.length_append, List.length_cons, List.length_nil, bisyncTail]
      omega

/-! ## Claim theorems -/

/-- C1: without --no-default-excludes the filter-argument list is exactly the
8 built-in patterns, each preceded by "--exclude", in the fixed order of
DEFAULT_EXCLUDES, then every user --exclude pattern in given order, then every
user --include pattern in given order; with --no-default-excludes the built-in
block is absent and the user patterns keep that same relative order. -/
theorem c1_filter_args_order (a : Args) :
    fxOf a =
      (if a.noDefaultExcludes then []
       else ["--exclude", "/**/.git/**", "--exclude", "/**/.venv/**",
             "--exclude", "/**/venv/**", "--exclude", "/**/__pycache__/**",
             "--exclude", "/**/.mypy_cache/**", "--exclude", "/**/.pytest_cache/**",
             "--exclude", "/**/*.pyc", "--exclude", "/**/*.pyo"]) ++
      a.exclude.flatMap (fun pat => ["--exclude", pat]) ++
      a.incl.flatMap (fun pat => ["--include", pat]) ∧
    DEFAULT_EXCLUDES.length = 8 := by
  constructor
  · unfold fxOf
    rw [build_filter_args_eq]
    cases h : a.noDefaultExcludes <;> simp [h, DEFAULT_EXCLUDES]
  · rfl

/-- C5: in forward (non-reverse) mode, a source whose resolved path is not a
directory produces exactly one stderr message, spawns no subprocess, does not
abort, and the loop continues with the remaining sources. -/
theorem c5_missing_source_skipped (e : Env) (a : Args) (rclone s : String)
    (hrev : a.reverse = false) (hdir : e.isDir (e.resolve s) = false) :
    sourceStep e a rclone s =
      ([Event.err ("❌ Source not found or not a directory: " ++ e.resolve s)], false) ∧
    (∀ rest, sourceLoop e a rclone (s :: rest) =
      Event.err ("❌ Source not found or not a directory: " ++ e.resolve s) ::
        sourceLoop e a rclone rest) ∧
    (∀ c, Event.exec c ∉ (sourceStep e a rclone s).1) := by
  have hstep : sourceStep e a rclone s =
      ([Event.err ("❌ Source not found or not a directory: " ++ e.resolve s)], false) := by
    simp [sourceStep, hrev, hdir]
  refine ⟨hstep, fun rest => ?_, fun c => ?_⟩
  · show (match sourceStep e a rclone s with
      | (evs, true) => evs
      | (evs, false) => evs ++ sourceLoop e a rclone rest) = _
    rw [hstep]
    rfl
  · rw [hstep]
    simp

/-- C6: when rclone is not found on the path, the program prints one stderr
message and exits with status 2, and the trace holds no subprocess invocation
at all. -/
theorem c6_missing_rclone_exits_2 (e : Env) (a : Args) (h : e.whichRclone = Option.none) :
    mainTrace e a =
      [Event.err "❌ rclone not found. Install it first (e.g., `sudo apt-get install rclone`).",
       Event.exited 2] ∧
    ∀ c, Event.exec c ∉ mainTrace e a := by
  have ht : mainTrace e a =
      [Event.err "❌ rclone not found. Install it first (e.g., `sudo apt-get install rclone`).",
       Event.exited 2] := by
    unfold mainTrace
    rw [h]
  exact ⟨ht, by rw [ht]; simp⟩

/-- C8: a KeyboardInterrupt raised while the external process runs makes the
run function return 130 instead of propagating. -/
theorem c8_run_interrupted (e : Env) (cmd : List String)
    (h : e.runRes cmd = ProcResult.interrupted) : runRet e cmd = 130 := by
  unfold runRet
  rw [h]

/-- C9: with n occurrences of -v on the command line (argparse count starts
at the default 1), the verbosity block of the assembled command holds exactly
min (max 1 (n+1)) 3 copies of "-v": always at least 1 and at most 3. -/
theorem c9_verbose_capped (a : Args) (n : Nat) (h : a.verbose = 1 + n) :
    (common a).count "-v" = min (max 1 (n + 1)) 3 ∧
    1 ≤ (common a).count "-v" ∧ (common a).count "-v" ≤ 3 := by
  have hc := count_v_common a
  rw [h] at hc
  refine ⟨?_, ?_, ?_⟩ <;> rw [hc] <;> omega

/-! ## Concrete inputs for witnesses -/

/-- A baseline option record: the script's own defaults with one source. -/
def argsW : Args :=
  { src := ["x"], dest := "pcloud:TradingHub", mode := Mode.copy, reverse := false,
    name := Option.none, snapshot := false, dryRun := false, fast := false, verbose := 1,
    noDefaultExcludes := false, exclude := [], incl := [], resync := false,
    conflictResolve := ConflictPolicy.newer }

/-- A baseline world: rclone found, every path a directory, every command succeeds. -/
def envW : Env :=
  { whichRclone := some "rc", resolve := fun s => "/h/" ++ s,
    isDir := fun _ => true, mkdirOk := fun _ => true,
    now := ⟨2025, 10, 12, 13, 4, 5⟩, runRes := fun _ => ProcResult.exited 0 }

/-- A world in which no path is a directory. -/
def envW5 : Env := { envW with isDir := fun _ => false }

/-- C5 witness at a concrete world with a missing source directory. -/
theorem c5_witness :
    argsW.reverse = false ∧ envW5.isDir (envW5.resolve "x") = false ∧
    (sourceStep envW5 argsW "rc" "x" =
      ([Event.err ("❌ Source not found or not a directory: " ++ envW5.resolve "x")], false) ∧
     (∀ rest, sourceLoop envW5 argsW "rc" ("x" :: rest) =
       Event.err ("❌ Source not found or not a directory: " ++ envW5.resolve "x") ::
         sourceLoop envW5 argsW "rc" rest) ∧
     (∀ c, Event.exec c ∉ (sourceStep envW5 argsW "rc" "x").1)) :=
  ⟨rfl, rfl, c5_missing_source_skipped envW5 argsW "rc" "x" rfl rfl⟩

/-- A world with no rclone binary on the path. -/
def envW6 : Env := { envW with whichRclone := Option.none }

/-- C6 witness at a concrete world without the rclone binary. -/
theorem c6_witness :
    envW6.whichRclone = Option.none ∧
    (mainTrace envW6 argsW =
      [Event.err "❌ rclone not found. Install it first (e.g., `sudo apt-get install rclone`).",
       Event.exited 2] ∧
     ∀ c, Event.exec c ∉ mainTrace envW6 argsW) :=
  ⟨rfl, c6_missing_rclone_exits_2 envW6 argsW rfl⟩

/-- A world whose every subprocess is interrupted by the keyboard. -/
def envW8 : Env := { envW with runRes := fun _ => ProcResult.interrupted }

/-- C8 witness at a concrete interrupted subprocess. -/
theorem c8_witness :
    envW8.runRes ["rc", "copy"] = ProcResult.interrupted ∧ runRet envW8 ["rc", "copy"] = 130 :=
  ⟨rfl, c8_run_interrupted envW8 ["rc", "copy"] rfl⟩

/-- C9 witness at zero -v occurrences: exactly one "-v" is emitted. -/
theorem c9_witness :
    argsW.verbose = 1 + 0 ∧
    ((common argsW).count "-v" = min (max 1 (0 + 1)) 3 ∧
     1 ≤ (common argsW).count "-v" ∧ (common argsW).count "-v" ≤ 3) :=
  ⟨rfl, c9_verbose_capped argsW 0 rfl⟩

theorem conflictPolicy_str_ne_resync (c : ConflictPolicy) : c.str ≠ "--resync" := by
  cases c <;> decide

/-- C7: in bisync mode the two path arguments sit right after the command
word (and the optional "--resync"); without --reverse they are
(real source, real destination), with --reverse the pair is flipped to
(real destination, real source). -/
theorem c7_bisync_path_order (a : Args) (e : Env) (rclone s : String)
    (hm : a.mode = Mode.bisync) :
    buildCmd a e rclone s =
      [rclone, "bisync"] ++ (if a.resync then ["--resync"] else []) ++
      [(if a.reverse then (realPaths a e s).2 else (realPaths a e s).1),
       (if a.reverse then (realPaths a e s).1 else (realPaths a e s).2)] ++
      common a ++ fxOf a ++ bisyncTail a :=
  bisyncCmd_eq a e rclone s hm

/-- Bisync options record for witnesses. -/
def argsW7 : Args := { argsW with mode := Mode.bisync }

/-- C7 witness at a concrete bisync invocation. -/
theorem c7_witness :
    argsW7.mode = Mode.bisync ∧
    buildCmd argsW7 envW "rc" "/h/x" =
      ["rc", "bisync"] ++ (if argsW7.resync then ["--resync"] else []) ++
      [(if argsW7.reverse then (realPaths argsW7 envW "/h/x").2
        else (realPaths argsW7 envW "/h/x").1),
       (if argsW7.reverse then (realPaths argsW7 envW "/h/x").1
        else (realPaths argsW7 envW "/h/x").2)] ++
      common argsW7 ++ fxOf argsW7 ++ bisyncTail argsW7 :=
  ⟨rfl, c7_bisync_path_order argsW7 envW "rc" "/h/x" rfl⟩

/-- C2: every bisync command carries "--check-access", the adjacent pair
"--compare" "size,modtime" and the adjacent pair "--conflict-resolve"
followed by the chosen policy, and the string "--resync" occurs in the vector
exactly when the --resync flag was passed (for the iff, the user-supplied
pattern and path strings are assumed not to be the literal "--resync", since
such a string would reappear verbatim as a pattern or path datum). -/
theorem c2_bisync_argument_vector (a : Args) (e : Env) (rclone s : String)
    (hm : a.mode = Mode.bisync)
    (hex : "--resync" ∉ a.exclude) (hinc : "--resync" ∉ a.incl)
    (hp1 : (realPaths a e s).1 ≠ "--resync") (hp2 : (realPaths a e s).2 ≠ "--resync")
    (hrc : rclone ≠ "--resync") :
    "--check-access" ∈ buildCmd a e rclone s ∧
    ["--compare", "size,modtime"] <:+: buildCmd a e rclone s ∧
    ["--conflict-resolve", a.conflictResolve.str] <:+: buildCmd a e rclone s ∧
    ("--resync" ∈ buildCmd a e rclone s ↔ a.resync = true) := by
  rw [bisyncCmd_eq a e rclone s hm]
  refine ⟨?_, ?_, ?_, ?_, ?_⟩
  case _ => simp [bisyncTail]
  case _ =>
    have t1 : ["--compare", "size,modtime"] <:+: bisyncTail a :=
      ⟨["--check-access"],
       ["--create-empty-src-dirs", "--resilient", "--recover", "--conflict-resolve",
        a.conflictResolve.str], rfl⟩
    have t2 : bisyncTail a <:+:
        [rclone, "bisync"] ++ (if a.resync then ["--resync"] else []) ++
        [(if a.reverse then (realPaths a e s).2 else (realPaths a e s).1),
         (if a.reverse then (realPaths a e s).1 else (realPaths a e s).2)] ++
        common a ++ fxOf a ++ bisyncTail a :=
      ⟨[rclone, "bisync"] ++ (if a.resync then ["--resync"] else []) ++
        [(if a.reverse then (realPaths a e s).2 else (realPaths a e s).1),
         (if a.reverse then (realPaths a e s).1 else (realPaths a e s).2)] ++
        common a ++ fxOf a, [], by simp⟩
    exact t1.trans t2
  case _ =>
    have t1 : ["--conflict-resolve", a.conflictResolve.str] <:+: bisyncTail a :=
      ⟨["--check-access", "--compare", "size,modtime", "--create-empty-src-dirs",
        "--resilient", "--recover"], [], by simp [bisyncTail]⟩
    have t2 : bisyncTail a <:+:
        [rclone, "bisync"] ++ (if a.resync then ["--resync"] else []) ++
        [(if a.reverse then (realPaths a e s).2 else (realPaths a e s).1),
         (if a.reverse then (realPaths a e s).1 else (realPaths a e s).2)] ++
        common a ++ fxOf a ++ bisyncTail a :=
      ⟨[rclone, "bisync"] ++ (if a.resync then ["--resync"] else []) ++
        [(if a.reverse then (realPaths a e s).2 else (realPaths a e s).1),
         (if a.reverse then (realPaths a e s).1 else (realPaths a e s).2)] ++
        common a ++ fxOf a, [], by simp⟩
    exact t1.trans t2
  case _ =>
    intro hmem
    cases hres : a.resync with
    | true => rfl
    | false =>
      exfalso
      simp only [hres, Bool.false_eq_true, if_false, List.nil_append,
        List.append_nil] at hmem
      rcases List.mem_append.1 hmem with h4 | htail
      · rcases List.mem_append.1 h4 with h3 | hfx
        · rcases List.mem_append.1 h3 with h2 | hcommon
          · rcases List.mem_append.1 h2 with h1 | hpair
            · rcases List.mem_cons.1 h1 with h0 | h0
              · exact hrc h0.symm
              · simp at h0
            · rcases List.mem_cons.1 hpair with h0 | h0
              · cases hr : a.reverse
                · rw [hr] at h0
                  simp only [Bool.false_eq_true, if_false] at h0
                  exact hp1 h0.symm
                · rw [hr] at h0
                  simp only [if_true] at h0
                  exact hp2 h0.symm
              · simp only [List.mem_singleton] at h0
                cases hr : a.reverse
                · rw [hr] at h0
                  simp only [Bool.false_eq_true, if_false] at h0
                  exact hp2 h0.symm
                · rw [hr] at h0
                  simp only [if_true] at h0
                  exact hp1 h0.symm
          · exact resync_not_mem_common a hcommon
        · unfold fxOf at hfx
          rcases mem_build_filter_args hfx with h1 | h1 | h1 | h1 | h1
          · simp at h1
          · simp at h1
          · simp [DEFAULT_EXCLUDES] at h1
          · exact hex h1
          · exact hinc h1
      · unfold bisyncTail at htail
        simp only [List.mem_cons, List.not_mem_nil, or_false] at htail
        rcases htail with h | h | h | h | h | h | h | h
        · simp at h
        · simp at h
        · simp at h
        · simp at h
        · simp at h
        · simp at h
        · simp at h
        · exact conflictPolicy_str_ne_resync a.conflictResolve h.symm
  case _ =>
    intro hres
    rw [hres]
    simp

/-- C2 witness at a concrete bisync invocation without --resync. -/
theorem c2_witness :
    argsW7.mode = Mode.bisync ∧ "--resync" ∉ argsW7.exclude ∧ "--resync" ∉ argsW7.incl ∧
    (realPaths argsW7 envW "/h/x").1 ≠ "--resync" ∧
    (realPaths argsW7 envW "/h/x").2 ≠ "--resync" ∧ ("rc" : String) ≠ "--resync" ∧
    ("--check-access" ∈ buildCmd argsW7 envW "rc" "/h/x" ∧
     ["--compare", "size,modtime"] <:+: buildCmd argsW7 envW "rc" "/h/x" ∧
     ["--conflict-resolve", argsW7.conflictResolve.str] <:+: buildCmd argsW7 envW "rc" "/h/x" ∧
     ("--resync" ∈ buildCmd argsW7 envW "rc" "/h/x" ↔ argsW7.resync = true)) :=
  ⟨rfl, by decide, by decide, by decide, by decide, by decide,
   c2_bisync_argument_vector argsW7 envW "rc" "/h/x" rfl (by decide) (by decide)
     (by decide) (by decide) (by decide)⟩

theorem digitChar_mod_isDigit (n : Nat) : (Nat.digitChar (n % 10)).isDigit = true := by
  have h10 : ∀ k, k < 10 → (Nat.digitChar k).isDigit = true := by decide
  exact h10 _ (Nat.mod_lt _ (by norm_num))

/-- C3: with --snapshot and mode copy or sync, the destination path (the
second real path: local in reverse mode, remote otherwise) is the
slash-normalised un-suffixed destination plus "-" plus the timestamp, which
matches YYYYMMDD_HHMMSS for any in-range clock value; with mode bisync the
--snapshot flag changes neither path. -/
theorem c3_snapshot_suffix (a : Args) (e : Env) (s : String)
    (hsnap : a.snapshot = true) (ht : validTm e.now) :
    ((a.mode = Mode.copy ∨ a.mode = Mode.sync) →
      (realPaths a e s).2 =
        pyRstrip (pathAsPosix ((realPaths { a with snapshot := false } e s).2)) ++
          "-" ++ tsOf e) ∧
    (a.mode = Mode.bisync →
      realPaths a e s = realPaths { a with snapshot := false } e s) ∧
    isTsFormat (tsOf e) = true := by
  refine ⟨?_, ?_, ?_⟩
  · intro hmode
    have happ : snapApplies a = true := by
      rcases hmode with h | h <;> simp [snapApplies, h, hsnap]
    have hnapp : snapApplies { a with snapshot := false } = false := by
      simp [snapApplies]
    unfold realPaths
    rw [happ, hnapp]
    cases hr : a.reverse
    · simp only [Bool.false_eq_true, if_false, if_true]
      rfl
    · simp only [if_true]
      rfl
  · intro hmode
    have hna : snapApplies a = false := by simp [snapApplies, hmode]
    have hnb : snapApplies { a with snapshot := false } = false := by
      simp [snapApplies]
    unfold realPaths
    rw [hna, hnb]
    rfl
  · unfold tsOf strftimeTs pad4 pad2
    simp only [List.cons_append, List.nil_append]
    simp [isTsFormat, digitChar_mod_isDigit]

/-- Snapshot options record for witnesses. -/
def argsW3 : Args := { argsW with snapshot := true }

/-- C3 witness at a concrete snapshot copy run. -/
theorem c3_witness :
    argsW3.snapshot = true ∧ validTm envW.now ∧
    (((argsW3.mode = Mode.copy ∨ argsW3.mode = Mode.sync) →
      (realPaths argsW3 envW "/h/x").2 =
        pyRstrip (pathAsPosix ((realPaths { argsW3 with snapshot := false } envW "/h/x").2)) ++
          "-" ++ tsOf envW) ∧
     (argsW3.mode = Mode.bisync →
      realPaths argsW3 envW "/h/x" = realPaths { argsW3 with snapshot := false } envW "/h/x") ∧
     isTsFormat (tsOf envW) = true) :=
  ⟨rfl, by decide, c3_snapshot_suffix argsW3 envW "/h/x" rfl (by decide)⟩

/-- Two sources, the first being the filesystem root. -/
def argsW4 : Args := { argsW with src := ["/", "/tmp"] }

/-- C4 counterexample: with multiple sources and no --name, the source
resolving to "/" has empty basename, and the program writes it to the bare
destination root — `if base:` at line 146 is falsy for "" — not to
destination root ++ "/" ++ basename as the claim's multi-source branch
asserts. -/
theorem c4_counterexample :
    multiSrc argsW4 = true ∧ argsW4.name = Option.none ∧ pyName "/" = "" ∧
    remotePath argsW4 "/" = "pcloud:TradingHub" ∧
    remotePath argsW4 "/" ≠ destRoot argsW4 ++ "/" ++ pyName "/" := by
  decide

/-- C4 amended: the nesting base obeys the precedence non-empty --name, then
multiple-sources basename, then none.  A non-empty --name nests under that
name; with multiple sources the base is the source basename and the
subfolder is added only when that basename is non-empty (a source resolving
to the filesystem root is written to the bare destination root); with a
single source and no effective --name no subfolder is added and the path
(before any snapshot suffix) is exactly the destination with trailing
slashes stripped.  An empty --name string counts as absent, as Python
truthiness makes the code fall through. -/
theorem c4_dest_nesting (a : Args) (s : String) :
    (∀ nm, a.name = some nm → nm ≠ "" → baseFor a s = some nm ∧
      remotePath a s = destRoot a ++ "/" ++ nm) ∧
    ((a.name = Option.none ∨ a.name = some "") → multiSrc a = true →
      baseFor a s = some (pyName s) ∧
      remotePath a s = (if pyName s == "" then destRoot a
                        else destRoot a ++ "/" ++ pyName s)) ∧
    ((a.name = Option.none ∨ a.name = some "") → multiSrc a = false →
      baseFor a s = Option.none ∧ remotePath a s = pyRstrip a.dest) := by
  refine ⟨?_, ?_, ?_⟩
  · intro nm hnm hne
    have hb : (nm == "") = false := beq_eq_false_iff_ne.2 hne
    have hbase : baseFor a s = some nm := by
      unfold baseFor
      rw [hnm]
      simp [hb]
    refine ⟨hbase, ?_⟩
    unfold remotePath
    rw [hbase]
    simp [hb]
  · intro hname hmulti
    have hb : baseFor a s = some (pyName s) := by
      unfold baseFor
      rcases hname with h | h <;> rw [h, hmulti] <;> rfl
    refine ⟨hb, ?_⟩
    unfold remotePath
    rw [hb]
  · intro hname hmulti
    have hb : baseFor a s = Option.none := by
      unfold baseFor
      rcases hname with h | h <;> rw [h, hmulti] <;> rfl
    exact ⟨hb, by unfold remotePath; rw [hb]; rfl⟩

/-- C4 witness: single source, no --name, path equals the stripped root. -/
theorem c4_witness :
    (argsW.name = Option.none ∨ argsW.name = some "") ∧ multiSrc argsW = false ∧
    baseFor argsW "/h/x" = Option.none ∧ remotePath argsW "/h/x" = pyRstrip argsW.dest :=
  ⟨Or.inl rfl, by decide,
   (c4_dest_nesting argsW "/h/x").2.2 (Or.inl rfl) (by decide)⟩

/-- Destination whose remote name is empty: a colon with nothing before it. -/
def argsW10 : Args := { argsW with dest := ":path" }

/-- C10 counterexample: the destination ":path" contains a colon, yet the
whole trace is a single stderr line — no probe (and no command at all) is
run, because the empty text before the colon is falsy in Python. -/
theorem c10_counterexample :
    argsW10.dest.toList.contains ':' = true ∧
    mainTrace envW5 argsW10 = [Event.err "❌ Source not found or not a directory: /h/x"] := by
  decide

theorem env_update_which (e : Env) (f : List String → ProcResult) :
    ({ e with runRes := f } : Env).whichRclone = e.whichRclone := rfl

theorem env_update_resolve (e : Env) (f : List String → ProcResult) :
    ({ e with runRes := f } : Env).resolve = e.resolve := rfl

theorem env_update_isDir (e : Env) (f : List String → ProcResult) :
    ({ e with runRes := f } : Env).isDir = e.isDir := rfl

theorem env_update_mkdirOk (e : Env) (f : List String → ProcResult) :
    ({ e with runRes := f } : Env).mkdirOk = e.mkdirOk := rfl

theorem tsOf_update (e : Env) (f : List String → ProcResult) :
    tsOf { e with runRes := f } = tsOf e := rfl

theorem realPaths_update (a : Args) (e : Env) (f : List String → ProcResult) (x : String) :
    realPaths a { e with runRes := f } x = realPaths a e x := rfl

theorem buildCmd_update (a : Args) (e : Env) (f : List String → ProcResult) (rclone x : String) :
    buildCmd a { e with runRes := f } rclone x = buildCmd a e rclone x := rfl

theorem sourceBody_runRes_congr (e : Env) (a : Args) (rclone x : String)
    (f : List String → ProcResult)
    (hf : ∀ c, c.length ≠ 3 → f c = e.runRes c) :
    sourceBody { e with runRes := f } a rclone x = sourceBody e a rclone x := by
  have hlen : (buildCmd a e rclone x).length ≠ 3 := by
    have := length_buildCmd a e rclone x
    omega
  have hrr : runRet { e with runRes := f } (buildCmd a e rclone x) =
      runRet e (buildCmd a e rclone x) := by
    unfold runRet
    rw [show ({ e with runRes := f } : Env).runRes = f from rfl, hf _ hlen]
  simp only [sourceBody]
  rw [realPaths_update, buildCmd_update, hrr]

theorem sourceStep_runRes_congr (e : Env) (a : Args) (rclone s : String)
    (f : List String → ProcResult)
    (hf : ∀ c, c.length ≠ 3 → f c = e.runRes c) :
    sourceStep { e with runRes := f } a rclone s = sourceStep e a rclone s := by
  simp only [sourceStep]
  rw [env_update_resolve, env_update_isDir, env_update_mkdirOk, tsOf_update,
    sourceBody_runRes_congr e a rclone (e.resolve s) f hf]

theorem sourceLoop_runRes_congr (e : Env) (a : Args) (rclone : String)
    (f : List String → ProcResult)
    (hf : ∀ c, c.length ≠ 3 → f c = e.runRes c) :
    ∀ l, sourceLoop { e with runRes := f } a rclone l = sourceLoop e a rclone l := by
  intro l
  induction l with
  | nil => rfl
  | cons s rest ih =>
    show (match sourceStep { e with runRes := f } a rclone s with
      | (evs, true) => evs
      | (evs, false) => evs ++ sourceLoop { e with runRes := f } a rclone rest) = _
    rw [sourceStep_runRes_congr e a rclone s f hf, ih]
    rfl

/-- C10 amended: when the destination holds a colon with NON-EMPTY text
before it, the trace starts with the probe "rclone about name:" before any
source is processed, and the probe's outcome is ignored — changing the
subprocess behaviour at the probe command alone leaves the whole trace
(including every per-source invocation) unchanged. -/
theorem c10_remote_probe_amended (e : Env) (a : Args) (rclone rn : String)
    (hw : e.whichRclone = some rclone) (hrn : remote_name a.dest = some rn)
    (hne : rn ≠ "") :
    mainTrace e a =
      Event.out ("$ " ++ joinSep " " [rclone, "about", rn ++ ":"]) ::
      Event.exec [rclone, "about", rn ++ ":"] :: sourceLoop e a rclone a.src ∧
    ∀ f : List String → ProcResult,
      (∀ c, c ≠ [rclone, "about", rn ++ ":"] → f c = e.runRes c) →
      mainTrace { e with runRes := f } a = mainTrace e a := by
  have hb : (rn == "") = false := beq_eq_false_iff_ne.2 hne
  have hprobe : probeEvents a rclone =
      [Event.out ("$ " ++ joinSep " " [rclone, "about", rn ++ ":"]),
       Event.exec [rclone, "about", rn ++ ":"]] := by
    unfold probeEvents
    rw [hrn]
    simp [hb, runEvents]
  have hmt : ∀ e' : Env, e'.whichRclone = some rclone →
      mainTrace e' a = probeEvents a rclone ++ sourceLoop e' a rclone a.src := by
    intro e' hw'
    unfold mainTrace
    rw [hw']
  constructor
  · rw [hmt e hw, hprobe]
    rfl
  · intro f hf
    have hf3 : ∀ c, c.length ≠ 3 → f c = e.runRes c := by
      intro c hc
      apply hf
      intro heq
      rw [heq] at hc
      simp at hc
    rw [hmt { e with runRes := f } ((env_update_which e f).trans hw), hmt e hw,
      sourceLoop_runRes_congr e a rclone f hf3]

/-- C10 witness for the amended statement at a concrete remote destination. -/
theorem c10_witness :
    envW.whichRclone = some "rc" ∧ remote_name argsW.dest = some "pcloud" ∧
    ("pcloud" : String) ≠ "" ∧
    (mainTrace envW argsW =
      Event.out ("$ " ++ joinSep " " ["rc", "about", "pcloud" ++ ":"]) ::
      Event.exec ["rc", "about", "pcloud" ++ ":"] :: sourceLoop envW argsW "rc" argsW.src ∧
     ∀ f : List String → ProcResult,
       (∀ c, c ≠ ["rc", "about", "pcloud" ++ ":"] → f c = envW.runRes c) →
       mainTrace { envW with runRes := f } argsW = mainTrace envW argsW) :=
  ⟨rfl, by decide, by decide,
   c10_remote_probe_amended envW argsW "rc" "pcloud" rfl (by decide) (by decide)⟩

end VPS
